import Mathlib

/-!
Shallow embedding of the ML analytics service (src/main.py) and proofs of
the specified properties of its batch-scoring pipeline, feature extraction
and model lifecycle.

Conventions of the embedding:
* Python datetimes are modelled by a record of numeric components.
* The handler `upload_analytics_data` reads the module-global pair
  (anomaly_detector, model_loaded); we pass the model state explicitly.
  The sklearn model's `predict` method is passed as a fallible function
  (`Except`) so that the handler's try/except boundary is visible: a
  Python exception inside the try block corresponds to `Except.error`,
  and the raised HTTPException(500, ...) to the handler's error result.
* Wall-clock values (`processing_time`, the response `timestamp`) are
  omitted from the response record: they are reads of the real-time clock
  with no algorithmic content.
-/

/-- Numeric components of a Python `datetime` as used by the handler
(`timestamp.hour`, `timestamp.minute`; the other components are carried so
that independence from them can be stated). -/
structure Datetime where
  year : Nat
  month : Nat
  day : Nat
  hour : Nat
  minute : Nat
  second : Nat
deriving Repr, DecidableEq

/-- The `AnalyticsData` pydantic model (src/main.py lines 39-45):
one user-interaction event. `metadata` is modelled as an optional
association list of string keys to string values. -/
structure AnalyticsData where
  timestamp : Datetime
  user_id : String
  event_type : String
  page_url : String
  session_id : String
  metadata : Option (List (String × String)) := none
deriving Repr, DecidableEq

/-- The scoring-relevant fields of the `AnalyticsResponse` model
(src/main.py lines 47-51 and 140-149): status, message, and the
`processed_events` / `anomalies_detected` counts of the data payload. -/
structure AnalyticsResponse where
  status : String
  message : String
  processed_events : Nat
  anomalies_detected : Nat
deriving Repr, DecidableEq

/-- The success response constructed at src/main.py lines 140-149 from the
processed count and the anomaly count. -/
def mkResponse (processed_count anomaly_count : Nat) : AnalyticsResponse :=
  { status := "success"
  , message := "Processed " ++ toString processed_count ++
      " events, detected " ++ toString anomaly_count ++ " anomalies"
  , processed_events := processed_count
  , anomalies_detected := anomaly_count }

/-- Feature extraction for one event (src/main.py lines 125-131):
`[len(user_id), len(page_url), len(session_id), timestamp.hour, timestamp.minute]`. -/
def feature_vector (item : AnalyticsData) : List Int :=
  [ (item.user_id.length : Int)
  , (item.page_url.length : Int)
  , (item.session_id.length : Int)
  , (item.timestamp.hour : Int)
  , (item.timestamp.minute : Int) ]

/-- Reference definition of feature extraction, written from the spec text
(spec.md section 3): `[len(user_id), len(page_url), len(session_id),
timestamp.hour, timestamp.minute]`, to be compared with `feature_vector`. -/
def extract_spec (e : AnalyticsData) : List Int :=
  [ (e.user_id.length : Int)
  , (e.page_url.length : Int)
  , (e.session_id.length : Int)
  , (e.timestamp.hour : Int)
  , (e.timestamp.minute : Int) ]

/-- The `/api/v1/analytics/upload` handler (src/main.py lines 113-156).
`predict` stands for the sklearn model's predict method on the extracted
feature matrix; it may fail (a Python exception), in which case the
handler's except block raises HTTPException(500, detail). The error result
carries the HTTP status code and the detail string. -/
def upload_analytics_data
    (predict : List (List Int) → Except String (List Int))
    (model_loaded : Bool) (data : List AnalyticsData) :
    Except (Nat × String) AnalyticsResponse :=
  let processed_count := data.length
  if model_loaded && !data.isEmpty then
    let features := data.map feature_vector
    match predict features with
    | Except.ok anomalies =>
        let anomaly_count := (anomalies.filter (fun a => a == -1)).length
        Except.ok (mkResponse processed_count anomaly_count)
    | Except.error e =>
        Except.error (500, "Failed to process analytics data: " ++ e)
  else
    Except.ok (mkResponse processed_count 0)

/-- The module-global model state of src/main.py lines 36-37:
`anomaly_detector` (None before startup) and the `model_loaded` flag.
The detector is represented by its predict method. -/
structure ServerState where
  anomaly_detector : Option (List (List Int) → Except String (List Int))
  model_loaded : Bool

/-- The state at module load (src/main.py lines 36-37):
`anomaly_detector = None`, `model_loaded = False`. -/
def initialState : ServerState :=
  { anomaly_detector := none, model_loaded := false }

/-- Reading `anomaly_detector.predict` from the global: if the global is
still None, the attribute access raises (caught by the handler's
try/except). -/
def predict_of (d : Option (List (List Int) → Except String (List Int))) :
    List (List Int) → Except String (List Int) :=
  match d with
  | some p => p
  | none => fun _ => Except.error "NoneType object has no attribute predict"

/-- One execution of the upload handler against the global state. The
handler contains no `global` statement and no assignment to either
global, so the state is returned unchanged. -/
def upload_step (s : ServerState) (data : List AnalyticsData) :
    ServerState × Except (Nat × String) AnalyticsResponse :=
  (s, upload_analytics_data (predict_of s.anomaly_detector) s.model_loaded data)

/-- The startup hook `load_ml_model` (src/main.py lines 62-83). `outcome`
is the result of constructing the IsolationForest and fitting it on the
baseline sample: on success the trained model's predict method, on failure
the exception message. The hook catches every exception; it returns the
new global state together with the error message logged on failure
(`None` when loading succeeded). It never raises. -/
def load_ml_model
    (outcome : Except String (List (List Int) → Except String (List Int)))
    (s : ServerState) : ServerState × Option String :=
  match outcome with
  | Except.ok m =>
      ({ anomaly_detector := some m, model_loaded := true }, none)
  | Except.error e =>
      ({ s with model_loaded := false }, some ("Failed to load ML model: " ++ e))

/-- A request served after startup; only the upload endpoint touches the
scoring pipeline (the other endpoints of src/main.py read the globals at
most, never write them). -/
inductive Request where
  | upload (data : List AnalyticsData)

/-- Serving one request. -/
def handle_request (s : ServerState) : Request → ServerState × Except (Nat × String) AnalyticsResponse
  | Request.upload data => upload_step s data

/-- Serving a sequence of requests, threading the global state. -/
def run_requests (s : ServerState) : List Request → ServerState
  | [] => s
  | r :: rs => run_requests (handle_request s r).1 rs

/-- A full process execution: module load, the startup hook once (FastAPI
runs it exactly once before serving), then a sequence of requests. -/
def run_server
    (outcome : Except String (List (List Int) → Except String (List Int)))
    (reqs : List Request) : ServerState :=
  run_requests (load_ml_model outcome initialState).1 reqs

/-- Modelled from the spec: sklearn's `IsolationForest` is not part of the
repository source. A tree of the isolation ensemble (spec.md section 4.2):
internal nodes split one feature dimension at a randomly chosen value;
leaves stop at a single point or the depth limit. -/
inductive ITree where
  | leaf (size : Nat)
  | node (dim : Nat) (split : Int) (lo hi : ITree)
deriving Repr

/-- Modelled from the spec: the deterministic pseudo-random source standing
for the model's seeded randomness (a linear congruential generator). -/
def lcg (s : Nat) : Nat := (s * 1103515245 + 12345) % 2147483648

/-- Modelled from the spec: building one isolation tree by recursively
choosing a random dimension and a random split value within the observed
range at the node, until a single point remains, the range is degenerate,
or the depth budget is exhausted. Threads the generator state. -/
def buildTree : Nat → List (List Int) → Nat → ITree × Nat
  | 0, pts, rng => (ITree.leaf pts.length, rng)
  | fuel + 1, pts, rng =>
    if pts.length ≤ 1 then (ITree.leaf pts.length, rng)
    else
      let rng1 := lcg rng
      let dim := rng1 % 5
      let vals := pts.map (fun p => p.getD dim 0)
      let lo := vals.foldl min (vals.headD 0)
      let hi := vals.foldl max (vals.headD 0)
      if lo = hi then (ITree.leaf pts.length, rng1)
      else
        let rng2 := lcg rng1
        let split := lo + Int.ofNat (rng2 % (hi - lo).toNat)
        let left := pts.filter (fun p => p.getD dim 0 ≤ split)
        let right := pts.filter (fun p => !(p.getD dim 0 ≤ split))
        let tl := buildTree fuel left rng2
        let tr := buildTree fuel right tl.2
        (ITree.node dim split tl.1 tr.1, tr.2)

/-- Modelled from the spec: the path length of a vector to its isolation
leaf in one tree. -/
def pathLen : ITree → List Int → Nat
  | ITree.leaf _, _ => 0
  | ITree.node d s l r, v =>
    if v.getD d 0 ≤ s then 1 + pathLen l v else 1 + pathLen r v

/-- Modelled from the spec: a vector's aggregate score over the ensemble,
the total isolation path length (shorter total path means more anomalous). -/
def forestScore (trees : List ITree) (v : List Int) : Nat :=
  (trees.map (fun t => pathLen t v)).sum

/-- Modelled from the spec: building the ensemble of `n` trees from the
training sample, threading the seeded generator. -/
def buildForest : Nat → List (List Int) → Nat → List ITree
  | 0, _, _ => []
  | n + 1, pts, rng =>
    let t := buildTree 8 pts rng
    t.1 :: buildForest n pts t.2

/-- Insertion into a sorted list of naturals (used to fit the threshold
quantile). -/
def insertSorted (x : Nat) : List Nat → List Nat
  | [] => [x]
  | y :: ys => if x ≤ y then x :: y :: ys else y :: insertSorted x ys

/-- Insertion sort on naturals. -/
def sortNat : List Nat → List Nat
  | [] => []
  | x :: xs => insertSorted x (sortNat xs)

/-- Modelled from the spec: a fitted isolation-forest model — the ensemble
together with the decision threshold fitted from the training scores. -/
structure ForestModel where
  trees : List ITree
  threshold : Nat
deriving Repr

namespace IsolationForest

/-- Modelled from the spec: sklearn `fit`. Builds the ensemble (100 trees)
from the seed, then sets the decision threshold at the contamination
quantile of the training scores: with contamination `cNum / cDen`,
approximately the lowest-scoring `cNum / cDen` fraction of the training
sample falls below the Normal/Anomalous boundary. -/
def fit (seed : Nat) (cNum cDen : Nat) (sample : List (List Int)) : ForestModel :=
  let trees := buildForest 100 sample seed
  let scores := sortNat (sample.map (forestScore trees))
  let k := sample.length * cNum / cDen
  { trees := trees, threshold := scores.getD k 0 }

/-- Modelled from the spec: sklearn `predict` on a fitted model — one
verdict per input vector, order preserving; `-1` means Anomalous (score
below the fitted threshold, i.e. isolated quickly), `1` means Normal.
The same fitted threshold is applied to every call. -/
def predict (m : ForestModel) (vs : List (List Int)) : List Int :=
  vs.map (fun v => if forestScore m.trees v < m.threshold then -1 else 1)

end IsolationForest

/-- Two events agreeing on exactly the five values feature extraction
reads: the lengths of user_id, page_url and session_id, and the
timestamp's hour and minute. -/
def FeatureAgree (e1 e2 : AnalyticsData) : Prop :=
  e1.user_id.length = e2.user_id.length ∧
  e1.page_url.length = e2.page_url.length ∧
  e1.session_id.length = e2.session_id.length ∧
  e1.timestamp.hour = e2.timestamp.hour ∧
  e1.timestamp.minute = e2.timestamp.minute

/-- Concrete event used by witnesses. -/
def evA : AnalyticsData :=
  { timestamp := ⟨2024, 1, 1, 10, 30, 0⟩, user_id := "alice", event_type := "click"
  , page_url := "/home", session_id := "s1", metadata := none }

/-- Concrete event agreeing with `evA` on the five extracted values but
differing in event type, metadata, string contents and the other
timestamp components. -/
def evB : AnalyticsData :=
  { timestamp := ⟨1999, 12, 31, 10, 30, 59⟩, user_id := "carol", event_type := "view"
  , page_url := "/nope", session_id := "x9", metadata := some [("k", "v")] }

/-- Extraction sends events agreeing on the five read values to the same
feature vector. -/
theorem feature_vector_congr (e1 e2 : AnalyticsData) (h : FeatureAgree e1 e2) :
    feature_vector e1 = feature_vector e2 := by
  obtain ⟨h1, h2, h3, h4, h5⟩ := h
  simp [feature_vector, h1, h2, h3, h4, h5]

/-- Request handling leaves the global model state unchanged. -/
theorem run_requests_preserves (reqs : List Request) (s : ServerState) :
    (run_requests s reqs).model_loaded = s.model_loaded := by
  induction reqs generalizing s with
  | nil => rfl
  | cons r rs ih => cases r with | upload d => exact ih s

/-- C1: for every non-empty batch with the model loaded, the upload handler
returns a success response whose processed count is the batch length and
whose anomaly count is the number of `-1` (Anomalous) verdicts of the
single predict call on the feature vectors extracted from the batch, one
vector per event in order. -/
theorem c1_ready_batch_scoring
    (predict : List (List Int) → Except String (List Int))
    (data : List AnalyticsData) (verdicts : List Int)
    (hne : data ≠ [])
    (hp : predict (data.map feature_vector) = Except.ok verdicts) :
    upload_analytics_data predict true data =
      Except.ok (mkResponse data.length ((verdicts.filter (fun a => a == -1)).length)) := by
  cases data with
  | nil => exact absurd rfl hne
  | cons d ds =>
    simp only [List.map_cons] at hp
    simp [upload_analytics_data, hp]

/-- Witness for C1: a concrete batch of three events with a predict call
yielding verdicts [-1, 1, -1] is scored with three processed events and
two anomalies. -/
theorem c1_witness :
    upload_analytics_data (fun _ => Except.ok [-1, 1, -1]) true [evA, evB, evA] =
      Except.ok (mkResponse 3 2) :=
  c1_ready_batch_scoring (fun _ => Except.ok [-1, 1, -1]) [evA, evB, evA]
    [-1, 1, -1] (by decide) rfl

/-- C2: every batch submitted while the model is not loaded is processed
without failure, with processed count the batch size and zero anomalies. -/
theorem c2_not_ready_degraded
    (predict : List (List Int) → Except String (List Int))
    (data : List AnalyticsData) :
    upload_analytics_data predict false data =
      Except.ok (mkResponse data.length 0) := rfl

/-- C3: the empty batch yields zero processed events and zero anomalies
with no failure, for either readiness state, and predict is never invoked
(the result is the same for every predict function). -/
theorem c3_empty_batch
    (p q : List (List Int) → Except String (List Int)) (ml : Bool) :
    upload_analytics_data p ml [] = Except.ok (mkResponse 0 0) ∧
    upload_analytics_data p ml [] = upload_analytics_data q ml [] := by
  cases ml <;> exact ⟨rfl, rfl⟩

/-- C4: feature extraction agrees with the reference definition of the
spec, always yields a vector of length exactly 5, and is deterministic
(extracting twice from the same event yields identical vectors). -/
theorem c4_extract_pure (e : AnalyticsData) :
    feature_vector e = extract_spec e ∧
    (feature_vector e).length = 5 ∧
    feature_vector e = feature_vector e :=
  ⟨rfl, rfl, rfl⟩

/-- C5: every failure of the scoring step inside the handler is caught at
the pipeline boundary and surfaced as a single HTTP 500 failure carrying a
descriptive message; no partial success response is returned. -/
theorem c5_error_boundary
    (predict : List (List Int) → Except String (List Int))
    (data : List AnalyticsData) (msg : String)
    (hne : data ≠ [])
    (hp : predict (data.map feature_vector) = Except.error msg) :
    upload_analytics_data predict true data =
      Except.error (500, "Failed to process analytics data: " ++ msg) := by
  cases data with
  | nil => exact absurd rfl hne
  | cons d ds =>
    simp only [List.map_cons] at hp
    simp [upload_analytics_data, hp]

/-- Witness for C5: a concrete batch whose scoring fails with message
"boom" produces the 500 failure with the descriptive detail string. -/
theorem c5_witness :
    upload_analytics_data (fun _ => Except.error "boom") true [evA] =
      Except.error (500, "Failed to process analytics data: boom") :=
  c5_error_boundary (fun _ => Except.error "boom") [evA] "boom" (by decide) rfl

/-- C6: the startup hook never raises — it is a total function returning
the new state and the logged message: on success it publishes the model
and sets the flag, on any failure it leaves the flag false and records
the failure message, with no retry. -/
theorem c6_startup_absorbs_failure (s : ServerState) :
    (∀ m, load_ml_model (Except.ok m) s =
        ({ anomaly_detector := some m, model_loaded := true }, none)) ∧
    (∀ e, load_ml_model (Except.error e) s =
        ({ s with model_loaded := false },
          some ("Failed to load ML model: " ++ e))) :=
  ⟨fun _ => rfl, fun _ => rfl⟩

/-- C7: the readiness flag is false at construction, before the startup
hook runs; serving requests never changes it, so the only transition is
the single startup step: after a successful startup the flag is true for
the whole execution (never reverting), and after a failed startup it is
false for the whole execution. -/
theorem c7_readiness_state_machine :
    initialState.model_loaded = false ∧
    (∀ (s : ServerState) (reqs : List Request),
      (run_requests s reqs).model_loaded = s.model_loaded) ∧
    (∀ m reqs, (run_server (Except.ok m) reqs).model_loaded = true) ∧
    (∀ e reqs, (run_server (Except.error e) reqs).model_loaded = false) := by
  refine ⟨rfl, run_requests_preserves |> fun h s reqs => h reqs s, ?_, ?_⟩
  · intro m reqs
    exact run_requests_preserves reqs (load_ml_model (Except.ok m) initialState).1
  · intro e reqs
    exact run_requests_preserves reqs (load_ml_model (Except.error e) initialState).1

/-- C8: fitting the model twice with the same seed (42), the same
contamination (1/10) and the same baseline sample yields models whose
predict results on the same vectors are identical, and repeated predict
calls on one trained instance return identical verdicts. -/
theorem c8_fit_predict_determinism
    (sample vs : List (List Int)) (m1 m2 : ForestModel)
    (h1 : m1 = IsolationForest.fit 42 1 10 sample)
    (h2 : m2 = IsolationForest.fit 42 1 10 sample) :
    IsolationForest.predict m1 vs = IsolationForest.predict m2 vs ∧
    IsolationForest.predict m1 vs = IsolationForest.predict m1 vs := by
  subst h1; subst h2; exact ⟨rfl, rfl⟩

/-- Witness for C8: two fits on a concrete baseline sample give identical
verdicts on a concrete vector set. -/
theorem c8_witness :
    IsolationForest.predict
        (IsolationForest.fit 42 1 10 [[0,0,0,0,0],[10,10,10,10,10],[1,2,3,4,5]])
        [[0,0,0,0,0],[100,100,100,100,100]] =
      IsolationForest.predict
        (IsolationForest.fit 42 1 10 [[0,0,0,0,0],[10,10,10,10,10],[1,2,3,4,5]])
        [[0,0,0,0,0],[100,100,100,100,100]] :=
  (c8_fit_predict_determinism [[0,0,0,0,0],[10,10,10,10,10],[1,2,3,4,5]]
    [[0,0,0,0,0],[100,100,100,100,100]] _ _ rfl rfl).1

/-- C9: serving an upload request is read-only with respect to the global
model state: the state after the handler equals the state before, in both
the detector reference and the readiness flag. -/
theorem c9_scoring_read_only (s : ServerState) (data : List AnalyticsData) :
    (upload_step s data).1 = s ∧
    (upload_step s data).1.anomaly_detector = s.anomaly_detector ∧
    (upload_step s data).1.model_loaded = s.model_loaded :=
  ⟨rfl, rfl, rfl⟩

/-- C10: feature extraction depends only on the three string lengths and
the timestamp's hour and minute. For two batches whose corresponding
events agree on those five derived values, the extracted feature matrices
are identical, and the handler's whole output — verdicts, processed count
and anomaly count — is identical, for any predict function and either
readiness state. -/
theorem c10_extraction_noninterference
    (predict : List (List Int) → Except String (List Int)) (ml : Bool)
    (d1 d2 : List AnalyticsData)
    (h : List.Forall₂ FeatureAgree d1 d2) :
    d1.map feature_vector = d2.map feature_vector ∧
    upload_analytics_data predict ml d1 = upload_analytics_data predict ml d2 := by
  have hmap : d1.map feature_vector = d2.map feature_vector := by
    induction h with
    | nil => rfl
    | cons hab _ ih => simp [feature_vector_congr _ _ hab, ih]
  have hlen : d1.length = d2.length := h.length_eq
  have hemp : d1.isEmpty = d2.isEmpty := by cases h <;> rfl
  refine ⟨hmap, ?_⟩
  simp only [upload_analytics_data, hmap, hlen, hemp]

/-- Witness for C10: the concrete events `evA` and `evB` differ in user,
page, session content, event type, metadata and date, yet agree on the
five derived values; the handler output on the two singleton batches is
identical. -/
theorem c10_witness :
    List.Forall₂ FeatureAgree [evA] [evB] ∧
    upload_analytics_data (fun vs => Except.ok (vs.map (fun _ => 1))) true [evA] =
      upload_analytics_data (fun vs => Except.ok (vs.map (fun _ => 1))) true [evB] :=
  have hf : List.Forall₂ FeatureAgree [evA] [evB] :=
    List.Forall₂.cons ⟨rfl, rfl, rfl, rfl, rfl⟩ List.Forall₂.nil
  ⟨hf, (c10_extraction_noninterference (fun vs => Except.ok (vs.map (fun _ => 1)))
    true [evA] [evB] hf).2⟩
